import Mathlib

/-!
Verification of the client-side submission pipeline in
`src/assets/js/validate.js` (contact form and newsletter form).

The JavaScript is embedded shallowly:

* `isEmailValid` (line 25) tests the anchored regular expression
  `^[^\s@]+@[^\s@]+\.[^\s@]+$` against the lowercased input.  The regex is
  transliterated into a backtracking matcher over `List Char`; the character
  class `[^\s@]` becomes `isAtomChar`, `String.prototype.toLowerCase` is
  modelled by `Char.toLower` per character and `\s` by `Char.isWhitespace`
  (both approximations are applied uniformly to code side and claim side).
* `String.prototype.trim` is modelled by `jsTrim`.
* The two submit handlers (newsletter, lines 47-124; contact, lines 140-232)
  become total functions from the form inputs and an environment — the static
  configuration constants (lines 19-22), the presence of `window.emailjs`,
  and the settled results of the asynchronous `fetch` / `emailjs.send`
  calls — to a record of the observable result state (banners, field values,
  spinner/disabled state, which strategy ran, which payload was sent).
  JavaScript string truthiness (`""` is falsy) is made explicit as
  comparisons with `""`.
* The duplicate-submission behaviour is modelled as a small event machine
  (`contactStep`, `newsStep`) whose submit transition mirrors each handler:
  the contact handler disables its submit control while the spinner shows
  (line 137), and a form whose only submit control is disabled produces no
  submit event, so a submit is a no-op while busy; the newsletter handler
  has no such guard and issues a new send on every valid submit.
-/

/- ====== The email regular expression ====== -/

/-- Character class `[^\s@]` of the regex on line 27: neither whitespace
nor the at sign. -/
def isAtomChar (c : Char) : Bool := !c.isWhitespace && !(c == '@')

/-- Backtracking matcher for `[^\s@]+` followed by the rest of the regex,
given as the continuation `k`. -/
def atomRun (k : List Char → Bool) : List Char → Bool
  | [] => false
  | c :: cs => isAtomChar c && (k cs || atomRun k cs)

/-- Matcher for the suffix `\.[^\s@]+$` of the regex. -/
def dotThen : List Char → Bool
  | [] => false
  | c :: r => c == '.' && atomRun List.isEmpty r

/-- Matcher for the suffix `[^\s@]+\.[^\s@]+$` of the regex. -/
def emailTail (l : List Char) : Bool := atomRun dotThen l

/-- Matcher for the suffix `@[^\s@]+\.[^\s@]+$` of the regex. -/
def atThen : List Char → Bool
  | [] => false
  | c :: r => c == '@' && emailTail r

/-- Matcher for the whole anchored regex `^[^\s@]+@[^\s@]+\.[^\s@]+$`. -/
def emailRegexMatch (l : List Char) : Bool := atomRun atThen l

/-- Line 25: `isEmailValid` tests the regex against the lowercased input. -/
def isEmailValid (s : String) : Bool :=
  emailRegexMatch (s.data.map Char.toLower)

/-- Model of `String.prototype.trim`: strip whitespace from both ends. -/
def jsTrim (s : String) : String :=
  ⟨((s.data.dropWhile Char.isWhitespace).reverse.dropWhile Char.isWhitespace).reverse⟩

/- ====== Claim-side and amended email predicates ====== -/

/-- No character of the string is whitespace. -/
def noWs (l : List Char) : Bool := l.all (fun c => !c.isWhitespace)

/-- The part before the first at sign. -/
def localPart (l : List Char) : List Char := l.takeWhile (fun c => !(c == '@'))

/-- The part after the first at sign. -/
def domainPart (l : List Char) : List Char :=
  (l.dropWhile (fun c => !(c == '@'))).tail

/-- Some dot occurs at a position that is not the last position of the
list, i.e. a `.` followed by a non-empty run of further characters. -/
def dotNotLast : List Char → Bool
  | [] => false
  | [_] => false
  | c :: c2 :: rest => c == '.' || dotNotLast (c2 :: rest)

/-- Written from the claim wording for `isEmailValid`: no whitespace, exactly
one local@domain split with non-empty local part, and the domain part
contains a `.` followed by a non-whitespace character run (given the
whitespace-freeness of the whole string, a `.` that is not the last
character of the domain), case-insensitively. -/
def claimEmailCheck (l : List Char) : Bool :=
  noWs l && (l.count '@' == 1) && !(localPart l).isEmpty &&
    dotNotLast (domainPart l)

/-- The claim predicate applied to the lowercased string. -/
def specEmailValid (s : String) : Bool :=
  claimEmailCheck (s.data.map Char.toLower)

/-- Amended form: the domain must contain a `.` that is neither its first
nor its last character. -/
def domInnerDot : List Char → Bool
  | [] => false
  | _ :: rest => dotNotLast rest

/-- The amended characterization: like `claimEmailCheck`, but the dot in the
domain part must also be preceded by at least one character. -/
def amendedEmailCheck (l : List Char) : Bool :=
  noWs l && (l.count '@' == 1) && !(localPart l).isEmpty &&
    domInnerDot (domainPart l)

/-- The amended characterization applied to the lowercased string. -/
def amendedEmailValid (s : String) : Bool :=
  amendedEmailCheck (s.data.map Char.toLower)

/- ====== Data model of the submission pipeline ====== -/

/-- Lines 19-22: the static configuration constants.  A JavaScript string is
truthy exactly when it is non-empty. -/
structure Config where
  serviceId : String
  templateId : String
  publicKey : String
  endpoint : String
deriving DecidableEq

/-- The three delivery strategies named by the specification. -/
inductive Strategy where
  | mailRelay
  | formRelay
  | demo
deriving DecidableEq

/-- The outcome vocabulary of the specification (section 3). -/
inductive Outcome where
  | success
  | serviceFailure (msg : String)
  | networkFailure (msg : String)
deriving DecidableEq

/-- Result of an awaited `fetch` call: either a response carrying an HTTP
status, or a transport-level exception thrown by the call. -/
inductive FetchResult where
  | response (status : Nat)
  | exception
deriving DecidableEq

/-- `Response.ok`: the status is in the inclusive range 200-299. -/
def respOk (status : Nat) : Bool := decide (200 ≤ status) && decide (status < 300)

/-- Lines 177-185: the contact payload shape. -/
structure Payload where
  name : String
  email : String
  phone : String
  company : String
  subject : String
  message : String
  ref : String
deriving DecidableEq

/-- The contact form inputs.  The four required inputs are modelled as
present (the page defines them); the three optional inputs may be absent,
which the code guards with `form.querySelector(...) && ...`. -/
structure ContactDom where
  name : String
  email : String
  subject : String
  message : String
  phone : Option String
  company : Option String
  ref : Option String
deriving DecidableEq

/-- Environment of one contact submission: the configuration, whether
`window.emailjs` is present, and the settled results of the asynchronous
calls (`emailjs.send` either resolves or rejects; `fetch` either returns a
response or throws). -/
structure ContactEnv where
  cfg : Config
  cap : Bool
  mailResult : Except Unit Unit
  fetchResult : FetchResult

/-- Lines 153-164: per-field validation of the contact form.  A field fails
when its trimmed value is empty; the email field fails when its trimmed
value does not pass `isEmailValid`. -/
def nameInvalid (d : ContactDom) : Bool := jsTrim d.name == ""

/-- Line 157: the email field check. -/
def emailFieldInvalid (d : ContactDom) : Bool := !isEmailValid (jsTrim d.email)

/-- Line 160: the subject field check. -/
def subjectInvalid (d : ContactDom) : Bool := jsTrim d.subject == ""

/-- Line 163: the message field check. -/
def messageInvalid (d : ContactDom) : Bool := jsTrim d.message == ""

/-- Lines 153-164: the `valid` flag is true iff no field check failed. -/
def contactValid (d : ContactDom) : Bool :=
  !nameInvalid d && !emailFieldInvalid d && !subjectInvalid d && !messageInvalid d

/-- Lines 177-185: payload construction.  The four required fields and the
optional phone/company are trimmed (`(q && q.value.trim()) || ''` yields the
trimmed value, or the empty string when the input is absent or blank); `ref`
takes the raw value `(q && q.value) || ''`, untrimmed. -/
def contactPayload (d : ContactDom) : Payload :=
  { name := jsTrim d.name
    email := jsTrim d.email
    phone := (d.phone.map jsTrim).getD ""
    company := (d.company.map jsTrim).getD ""
    subject := jsTrim d.subject
    message := jsTrim d.message
    ref := d.ref.getD "" }

/-- Written from the claim wording for the payload: every one of the seven
fields is the trimmed input value, the optional ones defaulting to the empty
string when absent. -/
def specContactPayload (d : ContactDom) : Payload :=
  { name := jsTrim d.name
    email := jsTrim d.email
    phone := (d.phone.map jsTrim).getD ""
    company := (d.company.map jsTrim).getD ""
    subject := jsTrim d.subject
    message := jsTrim d.message
    ref := (d.ref.map jsTrim).getD "" }

/-- `form.reset()`: every present input returns to its empty default. -/
def resetContact (d : ContactDom) : ContactDom :=
  { name := "", email := "", subject := "", message := ""
    phone := d.phone.map (fun _ => "")
    company := d.company.map (fun _ => "")
    ref := d.ref.map (fun _ => "") }

/-- Observable result of one run of the contact submit handler. -/
structure ContactResult where
  nameInv : Bool
  emailInv : Bool
  subjInv : Bool
  msgInv : Bool
  successShown : Bool
  errorShown : Bool
  errorMsg : Option String
  executed : Option (Strategy × Payload)
  outcome : Option Outcome
  fields : ContactDom
  busySet : Bool
  busyAfter : Bool
  delayMs : Nat
deriving DecidableEq

/-- Lines 140-232: the contact submit handler, as a function from the form
inputs and the environment to the observable result state.  Lines 144-145
hide both banners before anything else, so the result banners do not depend
on the previous banner state.  `busySet` records that `showSpinner(true)`
(line 187) ran, which shows the spinner and disables the submit control;
`busyAfter` is the disabled state once the submission has settled
(`showSpinner(false)` in every `finally` and in the demo timeout).
`outcome` tags each settled path with the specification's outcome
vocabulary: the path that shows the success banner and resets the form is
`success`; a non-2xx response or a rejected `emailjs.send` shows the error
banner, a `serviceFailure`; a thrown `fetch` shows the error banner with the
network message, a `networkFailure`. -/
def runContact (d : ContactDom) (env : ContactEnv) : ContactResult :=
  let nInv := nameInvalid d
  let eInv := emailFieldInvalid d
  let sInv := subjectInvalid d
  let mInv := messageInvalid d
  if contactValid d = false then
    -- lines 166-174: inline error banner, no payload, no send, no spinner
    { nameInv := nInv, emailInv := eInv, subjInv := sInv, msgInv := mInv
      successShown := false, errorShown := true
      errorMsg := some "Please complete the required fields."
      executed := none, outcome := none, fields := d
      busySet := false, busyAfter := false, delayMs := 0 }
  else
    let p := contactPayload d
    let base : ContactResult :=
      { nameInv := nInv, emailInv := eInv, subjInv := sInv, msgInv := mInv
        successShown := false, errorShown := false, errorMsg := none
        executed := none, outcome := none, fields := d
        busySet := true, busyAfter := false, delayMs := 0 }
    if env.cfg.serviceId != "" && env.cap then
      -- lines 191-202: EmailJS branch
      match env.mailResult with
      | .ok _ =>
          { base with successShown := true
                      executed := some (.mailRelay, p)
                      outcome := some .success
                      fields := resetContact d }
      | .error _ =>
          { base with errorShown := true
                      errorMsg := some "Please try again or email hello@asababusinesscommunity.com"
                      executed := some (.mailRelay, p)
                      outcome := some (.serviceFailure "Please try again or email hello@asababusinesscommunity.com") }
    else if env.cfg.endpoint != "" then
      -- lines 205-224: Formspree branch
      match env.fetchResult with
      | .response st =>
          if respOk st then
            { base with successShown := true
                        executed := some (.formRelay, p)
                        outcome := some .success
                        fields := resetContact d }
          else
            { base with errorShown := true
                        errorMsg := some "Submission failed — please try again later."
                        executed := some (.formRelay, p)
                        outcome := some (.serviceFailure "Submission failed — please try again later.") }
      | .exception =>
          { base with errorShown := true
                      errorMsg := some "Network error — try again later."
                      executed := some (.formRelay, p)
                      outcome := some (.networkFailure "Network error — try again later.") }
    else
      -- lines 227-231: demo fallback, success after a setTimeout of 800ms
      { base with successShown := true
                  executed := some (.demo, p)
                  outcome := some .success
                  fields := resetContact d
                  delayMs := 800 }

/-- Environment of one newsletter submission. -/
structure NewsEnv where
  cfg : Config
  cap : Bool
  mailResult : Except Unit Unit
  fetchResult : FetchResult

/-- Observable result of one run of the newsletter submit handler.  The
newsletter handler never shows a spinner and never disables any control, so
its busy state is identically false; `busyAfter` records that. -/
structure NewsResult where
  feedbackMsg : Option String
  emailVal : String
  executed : Option Strategy
  outcome : Option Outcome
  busyAfter : Bool
  delayMs : Nat
deriving DecidableEq

/-- Lines 47-124: the newsletter submit handler.  Branch order as written:
demo mode when both configuration strings are empty (line 65), then the
Formspree branch (line 76, every path returns), then the EmailJS branch
(line 107); when the service id is set but the endpoint is empty and
`window.emailjs` is absent, every branch is skipped and the handler falls
off the end without sending or giving feedback. -/
def runNewsletter (raw : String) (env : NewsEnv) : NewsResult :=
  let email := jsTrim raw
  if isEmailValid email = false then
    { feedbackMsg := some "Please enter a valid email address."
      emailVal := raw, executed := none, outcome := none
      busyAfter := false, delayMs := 0 }
  else if env.cfg.serviceId == "" && env.cfg.endpoint == "" then
    { feedbackMsg := some "Subscribed — thanks! (Demo mode)"
      emailVal := "", executed := some .demo, outcome := some .success
      busyAfter := false, delayMs := 0 }
  else if env.cfg.endpoint != "" then
    match env.fetchResult with
    | .response st =>
        if respOk st then
          { feedbackMsg := some "Thanks — you are subscribed."
            emailVal := "", executed := some .formRelay, outcome := some .success
            busyAfter := false, delayMs := 0 }
        else
          { feedbackMsg := some "Subscription failed — please try again later."
            emailVal := raw, executed := some .formRelay
            outcome := some (.serviceFailure "Subscription failed — please try again later.")
            busyAfter := false, delayMs := 0 }
    | .exception =>
        { feedbackMsg := some "Network error — please try again later."
          emailVal := raw, executed := some .formRelay
          outcome := some (.networkFailure "Network error — please try again later.")
          busyAfter := false, delayMs := 0 }
  else if env.cfg.serviceId != "" && env.cap then
    match env.mailResult with
    | .ok _ =>
        { feedbackMsg := some "Thanks — you are subscribed."
          emailVal := "", executed := some .mailRelay, outcome := some .success
          busyAfter := false, delayMs := 0 }
    | .error _ =>
        { feedbackMsg := some "Subscription failed — please try again."
          emailVal := raw, executed := some .mailRelay
          outcome := some (.serviceFailure "Subscription failed — please try again.")
          busyAfter := false, delayMs := 0 }
  else
    { feedbackMsg := none, emailVal := raw, executed := none, outcome := none
      busyAfter := false, delayMs := 0 }

/- ====== Strategy selection policies ====== -/

/-- Written from the claim wording (spec section 4.2): mail relay when the
whole mail-relay configuration is non-empty and the client is present, else
form relay when the endpoint is non-empty, else demo. -/
def specSelect (cfg : Config) (cap : Bool) : Strategy :=
  if cfg.serviceId != "" && cfg.templateId != "" && cfg.publicKey != "" && cap then .mailRelay
  else if cfg.endpoint != "" then .formRelay
  else .demo

/-- Branch order of the contact handler (lines 191, 205, 227): EmailJS when
the service id alone is non-empty and the client is present, else Formspree
when the endpoint is non-empty, else demo. -/
def contactSelect (cfg : Config) (cap : Bool) : Strategy :=
  if cfg.serviceId != "" && cap then .mailRelay
  else if cfg.endpoint != "" then .formRelay
  else .demo

/-- Branch order of the newsletter handler (lines 65, 76, 107): demo when
both strings are empty, else Formspree when the endpoint is non-empty, else
EmailJS when the service id is non-empty and the client is present, else
nothing at all. -/
def newsletterSelect (cfg : Config) (cap : Bool) : Option Strategy :=
  if cfg.serviceId == "" && cfg.endpoint == "" then some .demo
  else if cfg.endpoint != "" then some .formRelay
  else if cfg.serviceId != "" && cap then some .mailRelay
  else none

/- ====== Event machine for duplicate submissions ====== -/

/-- Events on one form: a user submit, or the settling of an in-flight
asynchronous send. -/
inductive Ev where
  | submit
  | settle
deriving DecidableEq

/-- Per-form UI state for the duplicate-submission analysis: whether the
submit control is disabled, how many sends are in flight (the form is in
the Submitting state exactly when this is positive), and how many sends
have been issued in total. -/
structure FormUi where
  busy : Bool
  pending : Nat
  total : Nat
deriving DecidableEq

/-- Initial state: idle, nothing in flight. -/
def uiInit : FormUi := { busy := false, pending := 0, total := 0 }

/-- One event on the contact form.  Line 137 sets `submitBtn.disabled`
while the spinner shows, and a form whose only submit control is disabled
produces no submit event, so a submit while busy is a no-op.  A delivered
submit with valid input runs the handler up to its suspension point:
`showSpinner(true)` (line 187) and one issued send.  A settle event runs
the continuation, which ends with `showSpinner(false)` (lines 199, 221,
230). -/
def contactStep (valid : Bool) (s : FormUi) : Ev → FormUi
  | .submit =>
      if s.busy then s
      else if valid then { busy := true, pending := s.pending + 1, total := s.total + 1 }
      else s
  | .settle =>
      if s.pending == 0 then s
      else { busy := false, pending := s.pending - 1, total := s.total }

/-- One event on the newsletter form.  The handler never disables any
control and has no busy check, so every submit with a valid email and an
asynchronous strategy (Formspree or EmailJS) issues a new send, even while
one is already in flight. -/
def newsStep (raw : String) (cfg : Config) (cap : Bool) (s : FormUi) : Ev → FormUi
  | .submit =>
      if isEmailValid (jsTrim raw) &&
          (match newsletterSelect cfg cap with
           | some .formRelay => true
           | some .mailRelay => true
           | _ => false) then
        { busy := s.busy, pending := s.pending + 1, total := s.total + 1 }
      else s
  | .settle =>
      if s.pending == 0 then s
      else { busy := s.busy, pending := s.pending - 1, total := s.total }

/-- Run a list of events from the initial state. -/
def runEvents (step : FormUi → Ev → FormUi) (evs : List Ev) : FormUi :=
  evs.foldl step uiInit

/- ====== Concrete inputs used by witnesses and counterexamples ====== -/

/-- A concrete valid contact input. -/
def sampleDom : ContactDom :=
  { name := "A", email := "a@b.co", subject := "S", message := "M"
    phone := none, company := none, ref := none }

/-- A contact input whose four required fields are all empty. -/
def emptyDom : ContactDom :=
  { name := "", email := "", subject := "", message := ""
    phone := none, company := none, ref := none }

/-- A valid contact input whose hidden `ref` input carries surrounding
whitespace. -/
def refDom : ContactDom :=
  { name := "A", email := "a@b.co", subject := "S", message := "M"
    phone := none, company := none, ref := some " x " }

/-- Configuration with no backend at all. -/
def emptyCfg : Config := ⟨"", "", "", ""⟩

/-- Configuration with only the Formspree endpoint set. -/
def relayCfg : Config := ⟨"", "", "", "https://formspree.io/f/x"⟩

/-- Configuration with only the EmailJS service id set. -/
def mailOnlyCfg : Config := ⟨"service_x", "", "", ""⟩

/-- Full EmailJS configuration. -/
def mailCfg : Config := ⟨"service_x", "template_x", "key_x", ""⟩

/-- Contact environment: no backend configured. -/
def demoEnvC : ContactEnv :=
  { cfg := emptyCfg, cap := false, mailResult := .ok (), fetchResult := .response 200 }

/-- Newsletter environment: no backend configured. -/
def demoEnvN : NewsEnv :=
  { cfg := emptyCfg, cap := false, mailResult := .ok (), fetchResult := .response 200 }

/-- Contact environment: EmailJS configured and present, send rejects. -/
def mailEnvC : ContactEnv :=
  { cfg := mailCfg, cap := true, mailResult := .error (), fetchResult := .response 200 }

/-- Newsletter environment: EmailJS configured and present, send rejects. -/
def mailEnvN : NewsEnv :=
  { cfg := mailCfg, cap := true, mailResult := .error (), fetchResult := .response 200 }

/-- Contact environment: Formspree endpoint set, transport returns 200. -/
def relayEnvC : ContactEnv :=
  { cfg := relayCfg, cap := false, mailResult := .ok (), fetchResult := .response 200 }

/-- Newsletter environment: Formspree endpoint set, transport returns 200. -/
def relayEnvN : NewsEnv :=
  { cfg := relayCfg, cap := false, mailResult := .ok (), fetchResult := .response 200 }

/- ====== Sanity checks ====== -/

example : isEmailValid "a@b.co" = true := by decide
example : isEmailValid "foo" = false := by decide
example : isEmailValid "foo@" = false := by decide
example : isEmailValid "foo@bar" = false := by decide
example : isEmailValid "a b@c.com" = false := by decide
example : isEmailValid "a@.b" = false := by decide
example : specEmailValid "a@.b" = true := by decide
example : amendedEmailValid "a@.b" = false := by decide
example : isEmailValid "a@..b" = true := by decide
example : amendedEmailValid "a@..b" = true := by decide
example : isEmailValid "A@B.CO" = true := by decide
example : jsTrim "  a b  " = "a b" := by decide

example : (runContact sampleDom demoEnvC).outcome = some .success := by decide

example :
    (runNewsletter "a@b.co"
       { cfg := mailOnlyCfg, cap := false,
         mailResult := .ok (), fetchResult := .response 200 }).executed = none := by
  decide

/- ====== Characterization of the email regex matcher ====== -/

lemma atomRun_iff (k : List Char → Bool) (l : List Char) :
    atomRun k l = true ↔
      ∃ a b, l = a ++ b ∧ a ≠ [] ∧ a.all isAtomChar = true ∧ k b = true := by
  induction l with
  | nil =>
      constructor
      · intro h; simp [atomRun] at h
      · rintro ⟨a, b, h, ha, -, -⟩
        rcases List.append_eq_nil.mp h.symm with ⟨h1, -⟩
        exact (ha h1).elim
  | cons c cs ih =>
      constructor
      · intro h
        simp only [atomRun, Bool.and_eq_true, Bool.or_eq_true] at h
        obtain ⟨hc, hk | hrec⟩ := h
        · exact ⟨[c], cs, rfl, by simp, by simp [hc], hk⟩
        · obtain ⟨a, b, heq, ha, hall, hk⟩ := ih.mp hrec
          exact ⟨c :: a, b, by simp [heq], by simp, by simp [hc, hall], hk⟩
      · rintro ⟨a, b, heq, ha, hall, hk⟩
        cases a with
        | nil => exact absurd rfl ha
        | cons c2 a2 =>
            rw [List.cons_append] at heq
            injection heq with h1 h2
            subst h1
            simp only [List.all_cons, Bool.and_eq_true] at hall
            obtain ⟨hc, ha2⟩ := hall
            cases a2 with
            | nil =>
                simp only [List.nil_append] at h2
                subst h2
                simp [atomRun, hc, hk]
            | cons c3 a3 =>
                have : atomRun k cs = true :=
                  ih.mpr ⟨c3 :: a3, b, h2, by simp, ha2, hk⟩
                simp [atomRun, hc, this]

lemma atomRun_isEmpty_iff (l : List Char) :
    atomRun List.isEmpty l = true ↔ l ≠ [] ∧ l.all isAtomChar = true := by
  rw [atomRun_iff]
  constructor
  · rintro ⟨a, b, heq, ha, hall, hk⟩
    have hb : b = [] := by
      cases b with
      | nil => rfl
      | cons x xs => simp [List.isEmpty] at hk
    subst hb
    rw [List.append_nil] at heq
    subst heq
    exact ⟨ha, hall⟩
  · rintro ⟨hne, hall⟩
    exact ⟨l, [], by simp, hne, hall, by simp [List.isEmpty]⟩

lemma dotThen_iff (r : List Char) :
    dotThen r = true ↔
      ∃ c, r = '.' :: c ∧ c ≠ [] ∧ c.all isAtomChar = true := by
  cases r with
  | nil =>
      constructor
      · intro h; simp [dotThen] at h
      · rintro ⟨c, h, -, -⟩; cases h
  | cons x r2 =>
      simp only [dotThen, Bool.and_eq_true, beq_iff_eq, atomRun_isEmpty_iff]
      constructor
      · rintro ⟨hx, h1, h2⟩
        exact ⟨r2, by rw [hx], h1, h2⟩
      · rintro ⟨c, heq, h1, h2⟩
        injection heq with hx hr
        subst hx; subst hr
        exact ⟨rfl, h1, h2⟩

lemma emailTail_iff (l : List Char) :
    emailTail l = true ↔
      ∃ b c, l = b ++ '.' :: c ∧ b ≠ [] ∧ b.all isAtomChar = true ∧
        c ≠ [] ∧ c.all isAtomChar = true := by
  unfold emailTail
  rw [atomRun_iff]
  constructor
  · rintro ⟨b, r, heq, hb, hball, hk⟩
    obtain ⟨c, hr, hc, hcall⟩ := (dotThen_iff r).mp hk
    subst hr
    exact ⟨b, c, heq, hb, hball, hc, hcall⟩
  · rintro ⟨b, c, heq, hb, hball, hc, hcall⟩
    exact ⟨b, '.' :: c, heq, hb, hball, (dotThen_iff _).mpr ⟨c, rfl, hc, hcall⟩⟩

lemma atThen_iff (r : List Char) :
    atThen r = true ↔
      ∃ b c, r = '@' :: (b ++ '.' :: c) ∧ b ≠ [] ∧ b.all isAtomChar = true ∧
        c ≠ [] ∧ c.all isAtomChar = true := by
  cases r with
  | nil =>
      constructor
      · intro h; simp [atThen] at h
      · rintro ⟨b, c, h, -⟩; cases h
  | cons x r2 =>
      simp only [atThen, Bool.and_eq_true, beq_iff_eq, emailTail_iff]
      constructor
      · rintro ⟨hx, b, c, heq, hrest⟩
        exact ⟨b, c, by rw [hx, heq], hrest⟩
      · rintro ⟨b, c, heq, hrest⟩
        injection heq with hx hr
        subst hx
        exact ⟨rfl, b, c, hr, hrest⟩

/-- The regex matches exactly the strings of shape `a@b.c` with `a`, `b`,
`c` non-empty runs of characters that are neither whitespace nor `@`. -/
lemma emailRegexMatch_iff (l : List Char) :
    emailRegexMatch l = true ↔
      ∃ a b c, l = a ++ '@' :: (b ++ '.' :: c) ∧
        a ≠ [] ∧ a.all isAtomChar = true ∧
        b ≠ [] ∧ b.all isAtomChar = true ∧
        c ≠ [] ∧ c.all isAtomChar = true := by
  unfold emailRegexMatch
  rw [atomRun_iff]
  constructor
  · rintro ⟨a, r, heq, ha, hall, hk⟩
    obtain ⟨b, c, hr, hrest⟩ := (atThen_iff r).mp hk
    subst hr
    exact ⟨a, b, c, heq, ha, hall, hrest⟩
  · rintro ⟨a, b, c, heq, ha, haall, hrest⟩
    exact ⟨a, '@' :: (b ++ '.' :: c), heq, ha, haall,
      (atThen_iff _).mpr ⟨b, c, rfl, hrest⟩⟩

/- ====== Characterization of the amended check ====== -/

lemma dotNotLast_iff (l : List Char) :
    dotNotLast l = true ↔ ∃ x c, l = x ++ '.' :: c ∧ c ≠ [] := by
  induction l with
  | nil =>
      constructor
      · intro h; simp [dotNotLast] at h
      · rintro ⟨x, c, heq, hc⟩
        rcases List.append_eq_nil.mp heq.symm with ⟨-, h2⟩
        cases h2
  | cons a t ih =>
      cases t with
      | nil =>
          constructor
          · intro h; simp [dotNotLast] at h
          · rintro ⟨x, c, heq, hc⟩
            cases x with
            | nil =>
                injection heq with h1 h2
                exact (hc h2.symm).elim
            | cons y ys =>
                rw [List.cons_append] at heq
                injection heq with h1 h2
                rcases List.append_eq_nil.mp h2.symm with ⟨-, h3⟩
                cases h3
      | cons b t2 =>
          constructor
          · intro h
            simp only [dotNotLast, Bool.or_eq_true, beq_iff_eq] at h
            rcases h with ha | hrec
            · exact ⟨[], b :: t2, by simp [ha], by simp⟩
            · obtain ⟨x, c, heq, hc⟩ := ih.mp hrec
              exact ⟨a :: x, c, by rw [List.cons_append, heq], hc⟩
          · rintro ⟨x, c, heq, hc⟩
            cases x with
            | nil =>
                simp only [List.nil_append] at heq
                injection heq with h1 h2
                subst h1
                simp [dotNotLast]
            | cons y ys =>
                rw [List.cons_append] at heq
                injection heq with h1 h2
                have hdt : dotNotLast (b :: t2) = true := ih.mpr ⟨ys, c, h2, hc⟩
                simp [dotNotLast, hdt]

lemma domInnerDot_iff (l : List Char) :
    domInnerDot l = true ↔ ∃ b c, l = b ++ '.' :: c ∧ b ≠ [] ∧ c ≠ [] := by
  cases l with
  | nil =>
      constructor
      · intro h; simp [domInnerDot] at h
      · rintro ⟨b, c, heq, hb, -⟩
        rcases List.append_eq_nil.mp heq.symm with ⟨h1, -⟩
        exact (hb h1).elim
  | cons a t =>
      simp only [domInnerDot, dotNotLast_iff]
      constructor
      · rintro ⟨x, c, heq, hc⟩
        exact ⟨a :: x, c, by rw [List.cons_append, heq], by simp, hc⟩
      · rintro ⟨b, c, heq, hb, hc⟩
        cases b with
        | nil => exact (hb rfl).elim
        | cons y ys =>
            rw [List.cons_append] at heq
            injection heq with h1 h2
            exact ⟨ys, c, h2, hc⟩

lemma takeWhile_all_append (p : Char → Bool) (a rest : List Char) (x : Char)
    (ha : ∀ y ∈ a, p y = true) (hx : p x = false) :
    (a ++ x :: rest).takeWhile p = a ∧ (a ++ x :: rest).dropWhile p = x :: rest := by
  induction a with
  | nil =>
      simp only [List.nil_append]
      constructor
      · simp [List.takeWhile_cons, hx]
      · simp [List.dropWhile_cons, hx]
  | cons y ys ih =>
      have hy : p y = true := ha y (by simp)
      have ih2 := ih (fun z hz => ha z (by simp [hz]))
      constructor
      · rw [List.cons_append, List.takeWhile_cons, hy]
        simp [ih2.1]
      · rw [List.cons_append, List.dropWhile_cons, hy]
        simp [ih2.2]

lemma count_at_zero_of_atoms (a : List Char) (h : a.all isAtomChar = true) :
    a.count '@' = 0 := by
  rw [List.count_eq_zero]
  intro hmem
  have h2 := List.all_eq_true.mp h _ hmem
  exact absurd h2 (by decide)

lemma localPart_cons_at (xs : List Char) : localPart ('@' :: xs) = [] := by
  unfold localPart
  simp [List.takeWhile_cons]

lemma domainPart_cons_at (xs : List Char) : domainPart ('@' :: xs) = xs := by
  unfold domainPart
  simp [List.dropWhile_cons]

lemma localPart_cons_ne (x : Char) (xs : List Char) (hx : ¬x = '@') :
    localPart (x :: xs) = x :: localPart xs := by
  unfold localPart
  simp [List.takeWhile_cons, hx]

lemma domainPart_cons_ne (x : Char) (xs : List Char) (hx : ¬x = '@') :
    domainPart (x :: xs) = domainPart xs := by
  unfold domainPart
  simp [List.dropWhile_cons, hx]

lemma split_at_first_at (l : List Char) (h : '@' ∈ l) :
    l = localPart l ++ '@' :: domainPart l := by
  induction l with
  | nil => cases h
  | cons x xs ih =>
      by_cases hx : x = '@'
      · subst hx
        rw [localPart_cons_at, domainPart_cons_at, List.nil_append]
      · have hmem : '@' ∈ xs := by
          rcases List.mem_cons.mp h with h1 | h1
          · exact (hx h1.symm).elim
          · exact h1
        rw [localPart_cons_ne x xs hx, domainPart_cons_ne x xs hx, List.cons_append]
        exact congrArg (x :: ·) (ih hmem)

lemma localPart_no_at (l : List Char) : ∀ c ∈ localPart l, ¬c = '@' := by
  intro c hc
  have := List.mem_takeWhile_imp hc
  simpa using this

lemma atoms_imp_no_ws (a : List Char) (h : a.all isAtomChar = true) :
    a.all (fun c => !c.isWhitespace) = true := by
  rw [List.all_eq_true] at h ⊢
  intro y hy
  have h2 := h y hy
  simp only [isAtomChar, Bool.and_eq_true, Bool.not_eq_true'] at h2
  simp [h2.1]

lemma amendedEmailCheck_iff (l : List Char) :
    amendedEmailCheck l = true ↔
      ∃ a b c, l = a ++ '@' :: (b ++ '.' :: c) ∧
        a ≠ [] ∧ a.all isAtomChar = true ∧
        b ≠ [] ∧ b.all isAtomChar = true ∧
        c ≠ [] ∧ c.all isAtomChar = true := by
  constructor
  · intro h
    simp only [amendedEmailCheck, Bool.and_eq_true, beq_iff_eq] at h
    obtain ⟨⟨⟨hws, hcount⟩, hloc⟩, hdom⟩ := h
    have hmem : '@' ∈ l := List.count_pos_iff.mp (by omega)
    have hsplit := split_at_first_at l hmem
    obtain ⟨b, c, hD, hb, hc⟩ := (domInnerDot_iff _).mp hdom
    have hwsl : ∀ y ∈ l, y.isWhitespace = false := by
      intro y hy
      have h2 := List.all_eq_true.mp hws y hy
      simpa using h2
    have hAatom : (localPart l).all isAtomChar = true := by
      rw [List.all_eq_true]
      intro y hy
      have h1 : y.isWhitespace = false :=
        hwsl y (by rw [hsplit]; exact List.mem_append_left _ hy)
      have h2 : ¬y = '@' := localPart_no_at l y hy
      simp [isAtomChar, h1, h2]
    have hcountA : (localPart l).count '@' = 0 := by
      rw [List.count_eq_zero]
      intro hmemA
      exact localPart_no_at l _ hmemA rfl
    have hcountD : (domainPart l).count '@' = 0 := by
      rw [hsplit, List.count_append, List.count_cons_self, hcountA] at hcount
      omega
    have hDatom : ∀ y ∈ domainPart l, isAtomChar y = true := by
      intro y hy
      have h1 : y.isWhitespace = false :=
        hwsl y (by rw [hsplit]; exact List.mem_append_right _ (List.mem_cons_of_mem _ hy))
      have h2 : ¬y = '@' := by
        intro heq
        exact (List.count_eq_zero.mp hcountD) (heq ▸ hy)
      simp [isAtomChar, h1, h2]
    have hball : b.all isAtomChar = true := by
      rw [List.all_eq_true]
      intro y hy
      exact hDatom y (by rw [hD]; exact List.mem_append_left _ hy)
    have hcall : c.all isAtomChar = true := by
      rw [List.all_eq_true]
      intro y hy
      exact hDatom y (by rw [hD]; exact List.mem_append_right _ (List.mem_cons_of_mem _ hy))
    have hlocne : localPart l ≠ [] := by
      intro hnil
      rw [hnil] at hloc
      simp [List.isEmpty] at hloc
    refine ⟨localPart l, b, c, ?_, hlocne, hAatom, hb, hball, hc, hcall⟩
    conv_lhs => rw [hsplit]
    rw [hD]
  · rintro ⟨a, b, c, heq, ha, haall, hb, hball, hc, hcall⟩
    have hfacts := takeWhile_all_append (fun ch => !(ch == '@')) a (b ++ '.' :: c) '@'
        (fun y hy => by
          have h2 := List.all_eq_true.mp haall y hy
          simp only [isAtomChar, Bool.and_eq_true, Bool.not_eq_true'] at h2
          simp [h2.2])
        (by simp)
    have hl : localPart l = a := by
      unfold localPart; rw [heq]; exact hfacts.1
    have hd : domainPart l = b ++ '.' :: c := by
      unfold domainPart; rw [heq, hfacts.2, List.tail_cons]
    have hwsAt : Char.isWhitespace '@' = false := by decide
    have hwsDot : Char.isWhitespace '.' = false := by decide
    have hws : noWs l = true := by
      unfold noWs
      rw [heq]
      simp [List.all_append, List.all_cons, atoms_imp_no_ws a haall,
            atoms_imp_no_ws b hball, atoms_imp_no_ws c hcall, hwsAt, hwsDot]
    have hcount : l.count '@' = 1 := by
      have ha0 := count_at_zero_of_atoms a haall
      have hb0 := count_at_zero_of_atoms b hball
      have hc0 := count_at_zero_of_atoms c hcall
      rw [heq, List.count_append, List.count_cons_self, List.count_append,
          List.count_cons_of_ne (by decide), ha0, hb0, hc0]
    have hane : a.isEmpty = false := by
      cases a with
      | nil => exact (ha rfl).elim
      | cons x xs => rfl
    have hdom : domInnerDot (b ++ '.' :: c) = true :=
      (domInnerDot_iff _).mpr ⟨b, c, rfl, hb, hc⟩
    unfold amendedEmailCheck
    rw [hl, hd]
    simp [hws, hcount, hane, hdom]

/-- The regex of `isEmailValid` agrees with the amended characterization on
every string of characters. -/
lemma emailRegexMatch_eq_amended (l : List Char) :
    emailRegexMatch l = amendedEmailCheck l := by
  cases hm : emailRegexMatch l with
  | true =>
      exact ((amendedEmailCheck_iff l).mpr ((emailRegexMatch_iff l).mp hm)).symm
  | false =>
      cases ha : amendedEmailCheck l with
      | false => rfl
      | true =>
          exact hm.symm.trans ((emailRegexMatch_iff l).mpr ((amendedEmailCheck_iff l).mp ha))



/- ====== Helper lemmas about the handlers ====== -/

lemma runContact_flags (d : ContactDom) (env : ContactEnv) :
    (runContact d env).nameInv = nameInvalid d ∧
    (runContact d env).emailInv = emailFieldInvalid d ∧
    (runContact d env).subjInv = subjectInvalid d ∧
    (runContact d env).msgInv = messageInvalid d := by
  simp only [runContact]
  split
  · exact ⟨rfl, rfl, rfl, rfl⟩
  · split
    · split <;> exact ⟨rfl, rfl, rfl, rfl⟩
    · split
      · split
        · split <;> exact ⟨rfl, rfl, rfl, rfl⟩
        · exact ⟨rfl, rfl, rfl, rfl⟩
      · exact ⟨rfl, rfl, rfl, rfl⟩

lemma runContact_invalid (d : ContactDom) (env : ContactEnv)
    (h : contactValid d = false) :
    (runContact d env).executed = none ∧ (runContact d env).errorShown = true ∧
    (runContact d env).successShown = false ∧
    (runContact d env).busySet = false ∧ (runContact d env).busyAfter = false := by
  simp [runContact, h]

lemma runContact_executed (d : ContactDom) (env : ContactEnv)
    (hv : contactValid d = true) :
    (runContact d env).executed
      = some (contactSelect env.cfg env.cap, contactPayload d) := by
  simp only [runContact, contactSelect]
  rw [if_neg (by simp [hv])]
  split
  next h1 =>
    cases env.mailResult <;> simp [h1]
  next h1 =>
    split
    next h2 =>
      cases env.fetchResult with
      | response st =>
          by_cases h3 : respOk st = true <;> simp [h1, h2, h3]
      | exception => simp [h1, h2]
    next h2 => simp [h1, h2]

lemma runNewsletter_executed (raw : String) (nenv : NewsEnv)
    (hv : isEmailValid (jsTrim raw) = true) :
    (runNewsletter raw nenv).executed = newsletterSelect nenv.cfg nenv.cap := by
  simp only [runNewsletter, newsletterSelect]
  rw [if_neg (by simp [hv])]
  split
  next h1 => simp [h1]
  next h1 =>
    split
    next h2 =>
      cases nenv.fetchResult with
      | response st =>
          by_cases h3 : respOk st = true <;> simp [h1, h2, h3]
      | exception => simp [h1, h2]
    next h2 =>
      split
      next h3 => cases nenv.mailResult <;> simp [h1, h2, h3]
      next h3 => simp [h1, h2, h3]

lemma email_invalid_disj (s : String) :
    (jsTrim s == "" || !isEmailValid (jsTrim s)) = !isEmailValid (jsTrim s) := by
  cases h : (jsTrim s == "") with
  | false => simp
  | true =>
      have he : jsTrim s = "" := by simpa using h
      rw [he]
      have hv : isEmailValid "" = false := by decide
      simp [hv]

lemma runContact_settled (d : ContactDom) (env : ContactEnv) :
    ((runContact d env).outcome = some .success →
      (runContact d env).fields = resetContact d ∧
        (runContact d env).busyAfter = false) ∧
    (∀ m, (runContact d env).outcome = some (.serviceFailure m) →
      (runContact d env).fields = d ∧ (runContact d env).busyAfter = false) ∧
    (∀ m, (runContact d env).outcome = some (.networkFailure m) →
      (runContact d env).fields = d ∧ (runContact d env).busyAfter = false) := by
  simp only [runContact]
  split
  · exact ⟨fun h => by simp at h, fun m h => by simp at h, fun m h => by simp at h⟩
  · split
    · split
      · exact ⟨fun h => ⟨rfl, rfl⟩, fun m h => by simp at h, fun m h => by simp at h⟩
      · exact ⟨fun h => by simp at h, fun m h => ⟨rfl, rfl⟩, fun m h => by simp at h⟩
    · split
      · split
        · split
          · exact ⟨fun h => ⟨rfl, rfl⟩, fun m h => by simp at h, fun m h => by simp at h⟩
          · exact ⟨fun h => by simp at h, fun m h => ⟨rfl, rfl⟩, fun m h => by simp at h⟩
        · exact ⟨fun h => by simp at h, fun m h => by simp at h, fun m h => ⟨rfl, rfl⟩⟩
      · exact ⟨fun h => ⟨rfl, rfl⟩, fun m h => by simp at h, fun m h => by simp at h⟩

lemma runNewsletter_settled (raw : String) (nenv : NewsEnv) :
    ((runNewsletter raw nenv).outcome = some .success →
      (runNewsletter raw nenv).emailVal = "" ∧
        (runNewsletter raw nenv).busyAfter = false) ∧
    (∀ m, (runNewsletter raw nenv).outcome = some (.serviceFailure m) →
      (runNewsletter raw nenv).emailVal = raw ∧
        (runNewsletter raw nenv).busyAfter = false) ∧
    (∀ m, (runNewsletter raw nenv).outcome = some (.networkFailure m) →
      (runNewsletter raw nenv).emailVal = raw ∧
        (runNewsletter raw nenv).busyAfter = false) := by
  simp only [runNewsletter]
  split
  · exact ⟨fun h => by simp at h, fun m h => by simp at h, fun m h => by simp at h⟩
  · split
    · exact ⟨fun h => ⟨rfl, rfl⟩, fun m h => by simp at h, fun m h => by simp at h⟩
    · split
      · split
        · split
          · exact ⟨fun h => ⟨rfl, rfl⟩, fun m h => by simp at h, fun m h => by simp at h⟩
          · exact ⟨fun h => by simp at h, fun m h => ⟨rfl, rfl⟩, fun m h => by simp at h⟩
        · exact ⟨fun h => by simp at h, fun m h => by simp at h, fun m h => ⟨rfl, rfl⟩⟩
      · split
        · split
          · exact ⟨fun h => ⟨rfl, rfl⟩, fun m h => by simp at h, fun m h => by simp at h⟩
          · exact ⟨fun h => by simp at h, fun m h => ⟨rfl, rfl⟩, fun m h => by simp at h⟩
        · exact ⟨fun h => by simp at h, fun m h => by simp at h, fun m h => by simp at h⟩

lemma contactStep_inv (valid : Bool) (s : FormUi) (ev : Ev)
    (h2 : s.pending ≤ 1) (h1 : s.busy = (s.pending == 1)) :
    (contactStep valid s ev).pending ≤ 1 ∧
      (contactStep valid s ev).busy = ((contactStep valid s ev).pending == 1) := by
  cases ev with
  | submit =>
      cases hb : s.busy with
      | true =>
          have hstep : contactStep valid s .submit = s := by
            simp [contactStep, hb]
          rw [hstep]
          exact ⟨h2, h1⟩
      | false =>
          have hp : s.pending = 0 := by
            rw [hb] at h1
            have h3 : s.pending ≠ 1 := by
              intro hx
              rw [hx] at h1
              simp at h1
            omega
          by_cases hv : valid = true
          · have hstep : contactStep valid s .submit
                = { busy := true, pending := s.pending + 1, total := s.total + 1 } := by
              simp [contactStep, hb, hv]
            rw [hstep]
            constructor
            · simp [hp]
            · simp [hp]
          · have hstep : contactStep valid s .submit = s := by
              simp [contactStep, hb, hv]
            rw [hstep]
            exact ⟨h2, h1⟩
  | settle =>
      cases hp : s.pending with
      | zero =>
          have hstep : contactStep valid s .settle = s := by
            simp [contactStep, hp]
          rw [hstep]
          exact ⟨h2, h1⟩
      | succ n =>
          have hn : n = 0 := by omega
          have hstep : contactStep valid s .settle
              = { busy := false, pending := n, total := s.total } := by
            simp [contactStep, hp]
          rw [hstep]
          constructor
          · simp [hn]
          · simp [hn]

lemma runEvents_contact_inv (valid : Bool) (evs : List Ev) :
    (runEvents (contactStep valid) evs).pending ≤ 1 ∧
      (runEvents (contactStep valid) evs).busy
        = ((runEvents (contactStep valid) evs).pending == 1) := by
  have main : ∀ s : FormUi, s.pending ≤ 1 → s.busy = (s.pending == 1) →
      (evs.foldl (contactStep valid) s).pending ≤ 1 ∧
        (evs.foldl (contactStep valid) s).busy
          = ((evs.foldl (contactStep valid) s).pending == 1) := by
    induction evs with
    | nil => intro s h2 h1; exact ⟨h2, h1⟩
    | cons ev rest ih =>
        intro s h2 h1
        have hstep := contactStep_inv valid s ev h2 h1
        exact ih _ hstep.1 hstep.2
  exact main uiInit (by simp [uiInit]) (by simp [uiInit])

/- ====== Claim theorems ====== -/

/-- Claim C1, counterexample: for the newsletter form, strategy selection is
neither total nor in the claimed order.  With the mail-relay service id set,
the form-relay endpoint empty and the mail client absent, the claim selects
DemoStrategy as the final fallback, but the handler executes no strategy at
all: every branch is skipped. -/
theorem newsletter_selection_not_total :
    isEmailValid (jsTrim "a@b.co") = true ∧
    specSelect mailOnlyCfg false = Strategy.demo ∧
    (runNewsletter "a@b.co"
        { cfg := mailOnlyCfg, cap := false,
          mailResult := .ok (), fetchResult := .response 200 }).executed = none := by
  decide

/-- Claim C1, amended: for every submission with a valid payload, the contact
handler executes exactly the strategy given by its branch order (mail relay
when the service id alone is non-empty and the client is present, else form
relay when the endpoint is non-empty, else demo), and the newsletter handler
executes exactly the strategy given by its branch order (demo when both
configuration strings are empty, else form relay when the endpoint is
non-empty, else mail relay when the service id is non-empty and the client
is present, else no strategy at all). -/
theorem strategy_selection_follows_branch_order
    (d : ContactDom) (env : ContactEnv) (raw : String) (nenv : NewsEnv) :
    (contactValid d = true →
      (runContact d env).executed
        = some (contactSelect env.cfg env.cap, contactPayload d)) ∧
    (isEmailValid (jsTrim raw) = true →
      (runNewsletter raw nenv).executed = newsletterSelect nenv.cfg nenv.cap) :=
  ⟨runContact_executed d env, runNewsletter_executed raw nenv⟩

/-- Witness for the amended claim C1 at a concrete valid input. -/
theorem strategy_selection_follows_branch_order_witness :
    (runContact sampleDom demoEnvC).executed
        = some (contactSelect demoEnvC.cfg demoEnvC.cap, contactPayload sampleDom) ∧
    (runNewsletter "a@b.co" demoEnvN).executed
        = newsletterSelect demoEnvN.cfg demoEnvN.cap :=
  ⟨(strategy_selection_follows_branch_order sampleDom demoEnvC "a@b.co" demoEnvN).1
      (by decide),
   (strategy_selection_follows_branch_order sampleDom demoEnvC "a@b.co" demoEnvN).2
      (by decide)⟩

/-- Claim C2, counterexample: the newsletter form has no busy guard.  After
one valid submit with the form-relay endpoint configured, a send is in
flight (the form is Submitting) yet the submit control is not disabled, and
a second submit event issues a second send before the first settles. -/
theorem newsletter_second_submit_not_noop :
    ((runEvents (newsStep "a@b.co" relayCfg false) [.submit]).pending = 1 ∧
     (runEvents (newsStep "a@b.co" relayCfg false) [.submit]).busy = false) ∧
    (runEvents (newsStep "a@b.co" relayCfg false) [.submit, .submit]).total = 2 := by
  decide

/-- Claim C2, amended: for the contact form the claim holds — after any
sequence of events the submit control is disabled exactly when a submission
is in flight, at most one submission is ever in flight, and a submit event
arriving while the control is disabled is a no-op (no new send is issued).
The newsletter form has no such guard. -/
theorem contact_busy_guard (valid : Bool) (evs : List Ev) :
    ((runEvents (contactStep valid) evs).pending ≤ 1 ∧
      (runEvents (contactStep valid) evs).busy
        = ((runEvents (contactStep valid) evs).pending == 1)) ∧
    ∀ s : FormUi, s.busy = true → contactStep valid s .submit = s := by
  refine ⟨runEvents_contact_inv valid evs, ?_⟩
  intro s hb
  simp [contactStep, hb]

/-- Witness for the amended claim C2: a submit on a busy contact form
changes nothing. -/
theorem contact_busy_guard_witness :
    contactStep true { busy := true, pending := 1, total := 1 } .submit
      = { busy := true, pending := 1, total := 1 } :=
  (contact_busy_guard true []).2 { busy := true, pending := 1, total := 1 } rfl

/-- Claim C3: for every payload sent by the form-relay strategy on either
form, a 2xx response yields Success, a non-2xx response yields
ServiceFailure, a transport exception yields NetworkFailure, and no other
outcome is possible. -/
theorem form_relay_outcome_mapping
    (d : ContactDom) (env : ContactEnv) (raw : String) (nenv : NewsEnv) :
    (contactValid d = true → (env.cfg.serviceId != "" && env.cap) = false →
      (env.cfg.endpoint != "") = true →
      (∀ st : Nat, env.fetchResult = .response st → respOk st = true →
        (runContact d env).outcome = some .success) ∧
      (∀ st : Nat, env.fetchResult = .response st → respOk st = false →
        (runContact d env).outcome
          = some (.serviceFailure "Submission failed — please try again later.")) ∧
      (env.fetchResult = .exception →
        (runContact d env).outcome
          = some (.networkFailure "Network error — try again later.")) ∧
      ((runContact d env).outcome = some .success ∨
       (runContact d env).outcome
          = some (.serviceFailure "Submission failed — please try again later.") ∨
       (runContact d env).outcome
          = some (.networkFailure "Network error — try again later."))) ∧
    (isEmailValid (jsTrim raw) = true →
      (nenv.cfg.serviceId == "" && nenv.cfg.endpoint == "") = false →
      (nenv.cfg.endpoint != "") = true →
      (∀ st : Nat, nenv.fetchResult = .response st → respOk st = true →
        (runNewsletter raw nenv).outcome = some .success) ∧
      (∀ st : Nat, nenv.fetchResult = .response st → respOk st = false →
        (runNewsletter raw nenv).outcome
          = some (.serviceFailure "Subscription failed — please try again later.")) ∧
      (nenv.fetchResult = .exception →
        (runNewsletter raw nenv).outcome
          = some (.networkFailure "Network error — please try again later.")) ∧
      ((runNewsletter raw nenv).outcome = some .success ∨
       (runNewsletter raw nenv).outcome
          = some (.serviceFailure "Subscription failed — please try again later.") ∨
       (runNewsletter raw nenv).outcome
          = some (.networkFailure "Network error — please try again later."))) := by
  constructor
  · intro hv h1 h2
    refine ⟨?_, ?_, ?_, ?_⟩
    · intro st hf h3
      simp [runContact, hv, h1, h2, hf, h3]
    · intro st hf h3
      simp [runContact, hv, h1, h2, hf, h3]
    · intro hf
      simp [runContact, hv, h1, h2, hf]
    · cases hf : env.fetchResult with
      | response st =>
          cases h3 : respOk st with
          | true => exact Or.inl (by simp [runContact, hv, h1, h2, hf, h3])
          | false => exact Or.inr (Or.inl (by simp [runContact, hv, h1, h2, hf, h3]))
      | exception => exact Or.inr (Or.inr (by simp [runContact, hv, h1, h2, hf]))
  · intro hv h1 h2
    refine ⟨?_, ?_, ?_, ?_⟩
    · intro st hf h3
      simp [runNewsletter, hv, h1, h2, hf, h3]
    · intro st hf h3
      simp [runNewsletter, hv, h1, h2, hf, h3]
    · intro hf
      simp [runNewsletter, hv, h1, h2, hf]
    · cases hf : nenv.fetchResult with
      | response st =>
          cases h3 : respOk st with
          | true => exact Or.inl (by simp [runNewsletter, hv, h1, h2, hf, h3])
          | false => exact Or.inr (Or.inl (by simp [runNewsletter, hv, h1, h2, hf, h3]))
      | exception => exact Or.inr (Or.inr (by simp [runNewsletter, hv, h1, h2, hf]))

/-- Witness for claim C3: a 200 response yields Success on both forms. -/
theorem form_relay_outcome_mapping_witness :
    (runContact sampleDom relayEnvC).outcome = some .success ∧
    (runNewsletter "a@b.co" relayEnvN).outcome = some .success := by
  have hc := (form_relay_outcome_mapping sampleDom relayEnvC "a@b.co" relayEnvN).1
      (by decide) (by decide) (by decide)
  have hn := (form_relay_outcome_mapping sampleDom relayEnvC "a@b.co" relayEnvN).2
      (by decide) (by decide) (by decide)
  exact ⟨hc.1 200 rfl (by decide), hn.1 200 rfl (by decide)⟩

/-- Claim C4: any rejection of the external mail client's send call is
caught at the strategy boundary and mapped to ServiceFailure with a generic
message, on both forms; the handler still produces a well-defined settled
state (busy cleared, error banner shown) rather than an uncaught failure. -/
theorem mail_relay_rejection_mapped
    (d : ContactDom) (env : ContactEnv) (raw : String) (nenv : NewsEnv) :
    (contactValid d = true → (env.cfg.serviceId != "" && env.cap) = true →
      env.mailResult = .error () →
      (runContact d env).outcome
          = some (.serviceFailure "Please try again or email hello@asababusinesscommunity.com") ∧
      (runContact d env).errorShown = true ∧
      (runContact d env).busyAfter = false) ∧
    (isEmailValid (jsTrim raw) = true →
      (nenv.cfg.serviceId == "" && nenv.cfg.endpoint == "") = false →
      (nenv.cfg.endpoint != "") = false →
      (nenv.cfg.serviceId != "" && nenv.cap) = true →
      nenv.mailResult = .error () →
      (runNewsletter raw nenv).outcome
          = some (.serviceFailure "Subscription failed — please try again.") ∧
      (runNewsletter raw nenv).busyAfter = false) := by
  constructor
  · intro hv h1 hm
    refine ⟨?_, ?_, ?_⟩ <;> simp [runContact, hv, h1, hm]
  · intro hv h1 h2 h3 hm
    refine ⟨?_, ?_⟩ <;> simp [runNewsletter, hv, h1, h2, h3, hm]

/-- Witness for claim C4: a rejected send yields the generic ServiceFailure
on both forms. -/
theorem mail_relay_rejection_mapped_witness :
    (runContact sampleDom mailEnvC).outcome
        = some (.serviceFailure "Please try again or email hello@asababusinesscommunity.com") ∧
    (runNewsletter "a@b.co" mailEnvN).outcome
        = some (.serviceFailure "Subscription failed — please try again.") := by
  have hc := (mail_relay_rejection_mapped sampleDom mailEnvC "a@b.co" mailEnvN).1
      (by decide) (by decide) rfl
  have hn := (mail_relay_rejection_mapped sampleDom mailEnvC "a@b.co" mailEnvN).2
      (by decide) (by decide) (by decide) (by decide) rfl
  exact ⟨hc.1, hn.1⟩

/-- Claim C5, counterexample: the claimed characterization accepts
`"a@.b"` (no whitespace, one at sign with non-empty local part, a dot in
the domain followed by a non-whitespace run), but the regex of
`isEmailValid` rejects it, because the regex also requires at least one
character between the at sign and the dot. -/
theorem email_claim_predicate_counterexample :
    specEmailValid "a@.b" = true ∧ isEmailValid "a@.b" = false := by decide

/-- Claim C5, amended: for every string, `isEmailValid` is true iff the
string contains no whitespace, contains exactly one local@domain split with
non-empty local part, and the domain part contains a `.` that is both
preceded and followed by at least one further character,
case-insensitively; the five concrete examples of the claim all hold. -/
theorem isEmailValid_characterization :
    (∀ s : String, isEmailValid s = amendedEmailValid s) ∧
    isEmailValid "a@b.co" = true ∧ isEmailValid "foo" = false ∧
    isEmailValid "foo@" = false ∧ isEmailValid "foo@bar" = false ∧
    isEmailValid "a b@c.com" = false := by
  refine ⟨fun s => emailRegexMatch_eq_amended _, ?_, ?_, ?_, ?_, ?_⟩ <;> decide

/-- Claim C6: a contact field is marked invalid iff it is a required field
with empty trimmed value or it is the email field failing `isEmailValid`;
with all four required fields empty all four are invalid and no send is
attempted; whenever validation fails, the error banner is shown, no
strategy runs and the form stays idle (spinner never shown, control never
disabled). -/
theorem contact_validation_spec (d : ContactDom) (env : ContactEnv) :
    ((runContact d env).nameInv = (jsTrim d.name == "")) ∧
    ((runContact d env).emailInv
        = (jsTrim d.email == "" || !isEmailValid (jsTrim d.email))) ∧
    ((runContact d env).subjInv = (jsTrim d.subject == "")) ∧
    ((runContact d env).msgInv = (jsTrim d.message == "")) ∧
    ((runContact emptyDom env).nameInv = true ∧
     (runContact emptyDom env).emailInv = true ∧
     (runContact emptyDom env).subjInv = true ∧
     (runContact emptyDom env).msgInv = true ∧
     (runContact emptyDom env).executed = none) ∧
    (contactValid d = false →
      (runContact d env).executed = none ∧
      (runContact d env).errorShown = true ∧
      (runContact d env).busySet = false ∧
      (runContact d env).busyAfter = false) := by
  have hf := runContact_flags d env
  have hfe := runContact_flags emptyDom env
  have hie := runContact_invalid emptyDom env (by decide)
  refine ⟨hf.1, ?_, hf.2.2.1, hf.2.2.2, ⟨?_, ?_, ?_, ?_, hie.1⟩, ?_⟩
  · rw [hf.2.1, email_invalid_disj]; rfl
  · rw [hfe.1]; decide
  · rw [hfe.2.1]; decide
  · rw [hfe.2.2.1]; decide
  · rw [hfe.2.2.2]; decide
  · intro h
    have hi := runContact_invalid d env h
    exact ⟨hi.1, hi.2.1, hi.2.2.2.1, hi.2.2.2.2⟩

/-- Witness for claim C6 at the all-empty input. -/
theorem contact_validation_spec_witness :
    (runContact emptyDom demoEnvC).executed = none ∧
    (runContact emptyDom demoEnvC).errorShown = true ∧
    (runContact emptyDom demoEnvC).busySet = false ∧
    (runContact emptyDom demoEnvC).busyAfter = false :=
  (contact_validation_spec emptyDom demoEnvC).2.2.2.2.2 (by decide)

/-- Claim C7: for every settled submission of either form, Success clears
the field values, ServiceFailure and NetworkFailure leave them intact, and
in every settled case the busy state is cleared (the newsletter form never
sets one). -/
theorem settled_outcome_fields
    (d : ContactDom) (env : ContactEnv) (raw : String) (nenv : NewsEnv) :
    ((runContact d env).outcome = some .success →
      (runContact d env).fields = resetContact d ∧
        (runContact d env).busyAfter = false) ∧
    (∀ m, (runContact d env).outcome = some (.serviceFailure m) →
      (runContact d env).fields = d ∧ (runContact d env).busyAfter = false) ∧
    (∀ m, (runContact d env).outcome = some (.networkFailure m) →
      (runContact d env).fields = d ∧ (runContact d env).busyAfter = false) ∧
    ((runNewsletter raw nenv).outcome = some .success →
      (runNewsletter raw nenv).emailVal = "" ∧
        (runNewsletter raw nenv).busyAfter = false) ∧
    (∀ m, (runNewsletter raw nenv).outcome = some (.serviceFailure m) →
      (runNewsletter raw nenv).emailVal = raw ∧
        (runNewsletter raw nenv).busyAfter = false) ∧
    (∀ m, (runNewsletter raw nenv).outcome = some (.networkFailure m) →
      (runNewsletter raw nenv).emailVal = raw ∧
        (runNewsletter raw nenv).busyAfter = false) :=
  ⟨(runContact_settled d env).1, (runContact_settled d env).2.1,
   (runContact_settled d env).2.2,
   (runNewsletter_settled raw nenv).1, (runNewsletter_settled raw nenv).2.1,
   (runNewsletter_settled raw nenv).2.2⟩

/-- Witness for claim C7: a successful demo submission clears the contact
fields and the busy state, and a rejected newsletter send leaves the email
value intact. -/
theorem settled_outcome_fields_witness :
    ((runContact sampleDom demoEnvC).fields = resetContact sampleDom ∧
      (runContact sampleDom demoEnvC).busyAfter = false) ∧
    ((runNewsletter "a@b.co" mailEnvN).emailVal = "a@b.co" ∧
      (runNewsletter "a@b.co" mailEnvN).busyAfter = false) :=
  ⟨(settled_outcome_fields sampleDom demoEnvC "a@b.co" mailEnvN).1 (by decide),
   (settled_outcome_fields sampleDom demoEnvC "a@b.co" mailEnvN).2.2.2.2.1
      "Subscription failed — please try again." (by decide)⟩

/-- Claim C8, counterexample: the claim says every one of the seven payload
fields is the trimmed input value, but the `ref` field is passed through
untrimmed: with a `ref` input of `" x "` the payload carries `" x "`, not
`"x"`. -/
theorem payload_ref_not_trimmed :
    (contactPayload refDom).ref = " x " ∧ (specContactPayload refDom).ref = "x" ∧
    contactPayload refDom ≠ specContactPayload refDom := by decide

/-- Claim C8, amended: the constructed payload maps name, email, subject,
message, phone and company to the trimmed input values, and `ref` to the
raw (untrimmed) input value; the optional phone, company and ref default to
the empty string when their input is absent; and every send of a valid
contact submission carries exactly this payload. -/
theorem contact_payload_fields (d : ContactDom) (env : ContactEnv) :
    ((contactPayload d).name = jsTrim d.name) ∧
    ((contactPayload d).email = jsTrim d.email) ∧
    ((contactPayload d).subject = jsTrim d.subject) ∧
    ((contactPayload d).message = jsTrim d.message) ∧
    ((contactPayload d).phone = (d.phone.map jsTrim).getD "") ∧
    ((contactPayload d).company = (d.company.map jsTrim).getD "") ∧
    ((contactPayload d).ref = d.ref.getD "") ∧
    (d.phone = none → (contactPayload d).phone = "") ∧
    (d.company = none → (contactPayload d).company = "") ∧
    (d.ref = none → (contactPayload d).ref = "") ∧
    (contactValid d = true →
      ∃ st, (runContact d env).executed = some (st, contactPayload d)) := by
  refine ⟨rfl, rfl, rfl, rfl, rfl, rfl, rfl, ?_, ?_, ?_, ?_⟩
  · intro h; simp [contactPayload, h]
  · intro h; simp [contactPayload, h]
  · intro h; simp [contactPayload, h]
  · intro hv
    exact ⟨contactSelect env.cfg env.cap, runContact_executed d env hv⟩

/-- Witness for the amended claim C8 at a concrete valid input. -/
theorem contact_payload_fields_witness :
    (contactPayload sampleDom).phone = "" ∧
    (∃ st, (runContact sampleDom demoEnvC).executed
        = some (st, contactPayload sampleDom)) :=
  ⟨(contact_payload_fields sampleDom demoEnvC).2.2.2.2.2.2.2.1 rfl,
   (contact_payload_fields sampleDom demoEnvC).2.2.2.2.2.2.2.2.2.2 (by decide)⟩

/-- Claim C9: with no backend configured, both handlers run the demo
strategy and always reach Success; the contact form only after the
artificial 800ms timeout, the newsletter form immediately with no delay. -/
theorem demo_strategy_behavior
    (d : ContactDom) (env : ContactEnv) (raw : String) (nenv : NewsEnv) :
    (contactValid d = true → env.cfg.serviceId = "" → env.cfg.endpoint = "" →
      (runContact d env).executed = some (.demo, contactPayload d) ∧
      (runContact d env).outcome = some .success ∧
      (runContact d env).delayMs = 800) ∧
    (isEmailValid (jsTrim raw) = true →
      nenv.cfg.serviceId = "" → nenv.cfg.endpoint = "" →
      (runNewsletter raw nenv).executed = some .demo ∧
      (runNewsletter raw nenv).outcome = some .success ∧
      (runNewsletter raw nenv).delayMs = 0) := by
  constructor
  · intro hv hs he
    have h1 : (env.cfg.serviceId != "" && env.cap) = false := by simp [hs]
    have h2 : (env.cfg.endpoint != "") = false := by simp [he]
    refine ⟨?_, ?_, ?_⟩ <;> simp [runContact, hv, h1, h2]
  · intro hv hs he
    have h0 : (nenv.cfg.serviceId == "" && nenv.cfg.endpoint == "") = true := by
      simp [hs, he]
    refine ⟨?_, ?_, ?_⟩ <;> simp [runNewsletter, hv, h0]

/-- Witness for claim C9 with the empty configuration. -/
theorem demo_strategy_behavior_witness :
    ((runContact sampleDom demoEnvC).executed
        = some (.demo, contactPayload sampleDom) ∧
      (runContact sampleDom demoEnvC).delayMs = 800) ∧
    ((runNewsletter "a@b.co" demoEnvN).executed = some .demo ∧
      (runNewsletter "a@b.co" demoEnvN).delayMs = 0) := by
  have hc := (demo_strategy_behavior sampleDom demoEnvC "a@b.co" demoEnvN).1
      (by decide) rfl rfl
  have hn := (demo_strategy_behavior sampleDom demoEnvC "a@b.co" demoEnvN).2
      (by decide) rfl rfl
  exact ⟨⟨hc.1, hc.2.2⟩, ⟨hn.1, hn.2.2⟩⟩

/-- Claim C10: after any run of the contact submit handler, at most one of
the success and error banners is visible — the handler hides both at the
start (so the result does not depend on the previous banner state) and each
path shows at most one of them. -/
theorem contact_banners_exclusive (d : ContactDom) (env : ContactEnv) :
    ((runContact d env).successShown && (runContact d env).errorShown) = false := by
  simp only [runContact]
  split
  · rfl
  · split
    · split <;> rfl
    · split
      · split
        · split <;> rfl
        · rfl
      · rfl
